import Mathlib

/-
Verification of the scisample core: the sampler abstraction and dispatch
layer plus the cross-product and bounded-range sampling algorithms.

Shallow embedding of:
  - scisample/cross_product.py  (CrossProductSampler)
  - scisample/uqpipeline_sample.py (UQPipelineSampler, the range sampler)
  - scisample/samplers.py       (registry and new_sampler factory)
  - scisample/interface.py      (SamplerInterface, contract only)

Python dictionaries are embedded as association lists in insertion order
(Python dict keys are unique within one dict; where a proof needs that
fact it appears as a Nodup hypothesis).  Python numbers are embedded as
Int (int) and Rat (float); Python exceptions are embedded as an explicit
error type threaded through Except.
-/

namespace Scisample

/-- Scalar configuration and sample values: Python int, float and str on
the domain the spec's data model allows (name to scalar). -/
inductive Scalar where
  | int : Int → Scalar
  | rat : ℚ → Scalar
  | str : String → Scalar
deriving DecidableEq

/-- A value of one entry of the `parameters` block: per the spec data
model either a literal sequence of values (cross-product axis) or a
min/max numeric-range dictionary (range sampler). -/
inductive PValue where
  | list : List Scalar → PValue
  | minmax : Scalar → Scalar → PValue
deriving DecidableEq

/-- True when the parameter value is a literal sequence. -/
def PValue.isList : PValue → Bool
  | .list _ => true
  | .minmax _ _ => false

/-- A sampler configuration mapping: the keys the embedded code reads.
`none` models absence of the key from the Python dict;
`previous_samples` records only presence of that key, which is all the
code inspects. -/
structure Config where
  type : Option String := none
  num_samples : Option Scalar := none
  previous_samples : Bool := false
  constants : Option (List (String × Scalar)) := none
  parameters : Option (List (String × PValue)) := none
deriving DecidableEq

/-- The single configuration/validation error kind (SamplingError). -/
structure SamplingError where
  msg : String
deriving DecidableEq

/-- Python exceptions the embedded code can raise. -/
inductive PyError where
  | sampling : SamplingError → PyError
  | typeError : PyError
  | keyError : String → PyError
  | nameError : String → PyError
  | indexError : PyError
deriving DecidableEq

/-- Decidable equality of Except results, so that concrete runs can be
settled by decide. -/
instance exceptDecEq {ε α : Type} [DecidableEq ε] [DecidableEq α] :
    DecidableEq (Except ε α)
  | .ok a, .ok b =>
      if h : a = b then .isTrue (by rw [h])
      else .isFalse (fun hc => h (Except.ok.inj hc))
  | .ok _, .error _ => .isFalse (fun hc => Except.noConfusion hc)
  | .error _, .ok _ => .isFalse (fun hc => Except.noConfusion hc)
  | .error a, .error b =>
      if h : a = b then .isTrue (by rw [h])
      else .isFalse (fun hc => h (Except.error.inj hc))

/-- A sample: a Python dict from parameter name to scalar, in insertion
order. -/
abbrev Dict := List (String × Scalar)

/-- A sampler instance: its kind tag, its configuration `data`, and the
`_samples` cache (`none` = not yet computed, distinct from `some []`). -/
structure Instance where
  kind : String
  data : Config
  samples : Option (List Dict)
deriving DecidableEq

/-- Python `d[k] = v` on a dict: overwrite in place if the key exists,
else append preserving insertion order. -/
def dictInsert (d : Dict) (k : String) (v : Scalar) : Dict :=
  if d.any (fun p => p.1 = k) then
    d.map (fun p => if p.1 = k then (k, v) else p)
  else d ++ [(k, v)]

/-- Python repr of a scalar, used only inside error-message text
(float repr is approximated by the rational printer). -/
def reprScalar : Scalar → String
  | .int n => toString n
  | .rat q => toString q
  | .str s => "\x27" ++ s ++ "\x27"

/-- Python repr of a parameters entry value, used only inside
error-message text. -/
def reprPValue : PValue → String
  | .list vs => "[" ++ String.intercalate ", " (vs.map reprScalar) ++ "]"
  | .minmax mn mx =>
      "\x7b\x27min\x27: " ++ reprScalar mn ++ ", \x27max\x27: " ++
        reprScalar mx ++ "\x7d"

/-- Python repr of a configuration dict (absent keys omitted, fields in
declaration order), used only inside error-message text. -/
def reprConfig (c : Config) : String :=
  let fields : List String :=
    (match c.type with
     | some t => ["\x27type\x27: " ++ "\x27" ++ t ++ "\x27"]
     | none => []) ++
    (match c.num_samples with
     | some v => ["\x27num_samples\x27: " ++ reprScalar v]
     | none => []) ++
    (if c.previous_samples then ["\x27previous_samples\x27: ..."] else []) ++
    (match c.constants with
     | some cs =>
         ["\x27constants\x27: \x7b" ++
           String.intercalate ", "
             (cs.map (fun p => "\x27" ++ p.1 ++ "\x27: " ++ reprScalar p.2)) ++
           "\x7d"]
     | none => []) ++
    (match c.parameters with
     | some ps =>
         ["\x27parameters\x27: \x7b" ++
           String.intercalate ", "
             (ps.map (fun p => "\x27" ++ p.1 ++ "\x27: " ++ reprPValue p.2)) ++
           "\x7d"]
     | none => [])
  "\x7b" ++ String.intercalate ", " fields ++ "\x7d"

/-- Modelled from the spec (section 4.2, base_sampler.py is not under
src/): `_check_variables_existence` fails with SamplingError if neither
`constants` nor `parameters` is present, or if `parameters` is present
but empty. -/
def check_variables_existence (c : Config) : Except SamplingError Unit :=
  match c.constants, c.parameters with
  | none, none => .error ⟨"no constants or parameters are defined in the sampler data"⟩
  | _, some ps =>
      if ps.isEmpty then .error ⟨"parameters block in sampler data is empty"⟩
      else .ok ()
  | some _, none => .ok ()

/-- Message of the duplicate-name SamplingError, naming the offending
variable (modelled from the spec, section 4.2 and 7). -/
def dupMsg (k : String) : String :=
  "The following variable is defined in both constants and parameters: " ++ k

/-- Modelled from the spec (section 4.2, base_sampler.py is not under
src/): `_check_variables_for_dups` fails with SamplingError if any name
appears in both `constants` and `parameters`. -/
def check_variables_for_dups (c : Config) : Except SamplingError Unit :=
  match ((c.constants.getD []).map Prod.fst).find?
      (fun k => ((c.parameters.getD []).map Prod.fst).contains k) with
  | some k => .error ⟨dupMsg k⟩
  | none => .ok ()

/-- CrossProductSampler.check_validity (cross_product.py lines 54-56):
runs the two shared checks in order. -/
def cross_check_validity (c : Config) : Except SamplingError Unit :=
  match check_variables_existence c with
  | .error e => .error e
  | .ok _ => check_variables_for_dups c

/-- CrossProductSampler.parameters (cross_product.py lines 58-70):
constants keys then parameters keys, in declaration order; a missing
block (suppressed KeyError) contributes nothing. -/
def cross_parameters (c : Config) : List String :=
  (c.constants.getD []).map Prod.fst ++ (c.parameters.getD []).map Prod.fst

/-- Python iteration over one parameters-entry value, as itertools.product
iterates each axis: a list yields its elements, a min/max dict yields its
keys (the strings "min" and "max"). -/
def axisOf : PValue → List Scalar
  | .list vs => vs
  | .minmax _ _ => [.str "min", .str "max"]

/-- The product_list of CrossProductSampler.get_samples (cross_product.py
lines 87-97): one singleton axis per constants entry followed by one axis
per parameters entry. -/
def cross_product_list (c : Config) : List (List Scalar) :=
  (c.constants.getD []).map (fun kv => [kv.2]) ++
    (c.parameters.getD []).map (fun kv => axisOf kv.2)

/-- itertools.product over a list of axes: tuples in lexicographic order,
the last axis varying fastest. -/
def pyProduct : List (List Scalar) → List (List Scalar)
  | [] => [[]]
  | ax :: rest => ax.flatMap (fun x => (pyProduct rest).map (fun t => x :: t))

/-- The sample-building loop of CrossProductSampler.get_samples
(cross_product.py lines 103-107): new_sample[key] = sample[i] for each
key of the parameter list.  Every tuple produced by the product has
exactly one coordinate per key (pyProduct_mem_length below), so the
positional access sample[i] is total and is embedded by zipping. -/
def buildSampleDict (keys : List String) (vals : List Scalar) : Dict :=
  (keys.zip vals).foldl (fun d kv => dictInsert d kv.1 kv.2) []

/-- CrossProductSampler.get_samples (cross_product.py lines 72-109),
including the `_samples` memoization cache. -/
def cross_get_samples (s : Instance) : Instance × List Dict :=
  match s.samples with
  | some l => (s, l)
  | none =>
      let samples :=
        (pyProduct (cross_product_list s.data)).map
          (fun tup => buildSampleDict (cross_parameters s.data) tup)
      ({ s with samples := some samples }, samples)

/-- Python `d2[k]` on a parameters-entry value: a min/max dict yields the
named field (KeyError for other keys); subscripting a list with a string
raises TypeError. -/
def pyItem (v : PValue) (k : String) : Except PyError Scalar :=
  match v with
  | .minmax mn mx =>
      if k = "min" then .ok mn
      else if k = "max" then .ok mx
      else .error (.keyError k)
  | .list _ => .error .typeError

/-- Decimal value of a digit list. -/
def digitsVal (l : List Char) : Nat :=
  l.foldl (fun a c => a * 10 + (c.toNat - 48)) 0

/-- Models Python float() applied to a string, restricted to plain
decimal literals: optional sign, digits, optional fractional part;
anything else fails (ValueError). -/
def parseFloat? (s : String) : Option ℚ :=
  let l := s.toList
  let sgn : ℚ := match l with
    | c :: _ => if c == '-' then -1 else 1
    | [] => 1
  let l2 := match l with
    | c :: rest => if c == '-' || c == '+' then rest else l
    | [] => l
  let ip := l2.takeWhile Char.isDigit
  let rest := l2.dropWhile Char.isDigit
  match rest with
  | [] => if ip.isEmpty then none else some (sgn * digitsVal ip)
  | c :: fp =>
      if c == '.' && fp.all Char.isDigit && !(ip.isEmpty && fp.isEmpty) then
        some (sgn * ((digitsVal ip : ℚ) + (digitsVal fp : ℚ) / ((10 : ℚ) ^ fp.length)))
      else none

/-- Models Python float() on the scalar domain: ints and floats convert;
strings convert exactly when they parse as decimal literals. `none`
models the ValueError path. -/
def pyFloat? : Scalar → Option ℚ
  | .int n => some (n : ℚ)
  | .rat q => some q
  | .str s => parseFloat? s

/-- Python subtraction on scalars: numeric pairs subtract (float result
if either side is a float); anything else raises TypeError. -/
def pySub : Scalar → Scalar → Except PyError Scalar
  | .int a, .int b => .ok (.int (a - b))
  | .int a, .rat b => .ok (.rat ((a : ℚ) - b))
  | .rat a, .int b => .ok (.rat (a - (b : ℚ)))
  | .rat a, .rat b => .ok (.rat (a - b))
  | _, _ => .error .typeError

/-- Python addition on scalars: numeric pairs add, two strings
concatenate; anything else raises TypeError. -/
def pyAdd : Scalar → Scalar → Except PyError Scalar
  | .int a, .int b => .ok (.int (a + b))
  | .int a, .rat b => .ok (.rat ((a : ℚ) + b))
  | .rat a, .int b => .ok (.rat (a + (b : ℚ)))
  | .rat a, .rat b => .ok (.rat (a + b))
  | .str a, .str b => .ok (.str (a ++ b))
  | _, _ => .error .typeError

/-- Python multiplication on scalars: numeric pairs multiply; the string
cases reachable here do not arise (the minuend loop raises first), so
they raise TypeError. -/
def pyMul : Scalar → Scalar → Except PyError Scalar
  | .int a, .int b => .ok (.int (a * b))
  | .int a, .rat b => .ok (.rat ((a : ℚ) * b))
  | .rat a, .int b => .ok (.rat (a * (b : ℚ)))
  | .rat a, .rat b => .ok (.rat (a * b))
  | _, _ => .error .typeError

/-- The SamplingError message for a non-numeric minimum
(uqpipeline_sample.py lines 84-86). -/
def uq_min_msg (k : String) (v : PValue) : String :=
  "Parameter (" ++ k ++ ") must have a numeric minimum.\n" ++
    "  Current minimum value is: " ++ reprPValue v ++ "."

/-- The SamplingError message for a non-numeric maximum
(uqpipeline_sample.py lines 90-92). -/
def uq_max_msg (k : String) (v : PValue) : String :=
  "Parameter (" ++ k ++ ") must have a numeric maximum.\n" ++
    "  Current maximum value is: " ++ reprPValue v ++ "."

/-- The SamplingError message for the unsupported previous_samples key
(uqpipeline_sample.py lines 75-77). -/
def uq_prev_msg : String :=
  "\x27previous_samples\x27 is not yet supported.\n" ++
    "  Please contact Chris Krenn or Brian Daub for assistance."

/-- The per-entry min/max numeric checks of UQPipelineSampler.check_validity
(uqpipeline_sample.py lines 80-92): for each parameters entry in order,
float(value["min"]) then float(value["max"]); a ValueError becomes the
SamplingError naming the entry, other exceptions propagate. -/
def uq_check_entry_loop : List (String × PValue) → Except PyError Unit
  | [] => .ok ()
  | (k, v) :: rest =>
      match pyItem v "min" with
      | .error e => .error e
      | .ok mn =>
          match pyFloat? mn with
          | none => .error (.sampling ⟨uq_min_msg k v⟩)
          | some _ =>
              match pyItem v "max" with
              | .error e => .error e
              | .ok mx =>
                  match pyFloat? mx with
                  | none => .error (.sampling ⟨uq_max_msg k v⟩)
                  | some _ => uq_check_entry_loop rest

/-- UQPipelineSampler.check_validity (uqpipeline_sample.py lines 69-92).
super().check_validity() and self._check_variables() live in
base_sampler.py, which is not under src/; modelled from the spec
(section 4.2) as the shared existence and duplicate-name checks. Then the
previous_samples rejection and the per-entry numeric checks, from the
source. -/
def uq_check_validity (c : Config) : Except PyError Unit :=
  match check_variables_existence c with
  | .error e => .error (.sampling e)
  | .ok _ =>
      match check_variables_for_dups c with
      | .error e => .error (.sampling e)
      | .ok _ =>
          if c.previous_samples then .error (.sampling ⟨uq_prev_msg⟩)
          else
            match c.parameters with
            | none => .error (.keyError "parameters")
            | some ps => uq_check_entry_loop ps

/-- The external point-generation backend contract (section 6):
sample_points(num_points, box) returning a sequence of coordinate
tuples. -/
abbrev Backend := Int → List (Scalar × Scalar) → List (List ℚ)

/-- Python `d[k]` on a built dict of scalars (KeyError when absent). -/
def lookupScalar (d : List (String × Scalar)) (k : String) :
    Except PyError Scalar :=
  match d.lookup k with
  | some v => .ok v
  | none => .error (.keyError k)

/-- Python `l[i]` positional indexing (IndexError when out of range). -/
def listGet {α : Type} (l : List α) (i : Nat) : Except PyError α :=
  match l.get? i with
  | some v => .ok v
  | none => .error .indexError

/-- The first loop of UQPipelineSampler.get_samples (uqpipeline_sample.py
lines 141-144): build min_dict, range_dict (max - min) and the box of
(min, max) pairs, one entry per parameters entry in order. -/
def uq_build_box : List (String × PValue) →
    Except PyError
      (List (String × Scalar) × List (String × Scalar) × List (Scalar × Scalar))
  | [] => .ok ([], [], [])
  | (k, v) :: rest =>
      match pyItem v "min" with
      | .error e => .error e
      | .ok mn =>
          match pyItem v "max" with
          | .error e => .error e
          | .ok mx =>
              match pySub mx mn with
              | .error e => .error e
              | .ok rg =>
                  match uq_build_box rest with
                  | .error e => .error e
                  | .ok (ms, rs, bs) =>
                      .ok ((k, mn) :: ms, (k, rg) :: rs, (mn, mx) :: bs)

/-- Python `range(n)` over self.data["num_samples"]: absent key raises
KeyError; a non-int raises TypeError. -/
def uq_num_samples (c : Config) : Except PyError Int :=
  match c.num_samples with
  | none => .error (.keyError "num_samples")
  | some (.int n) => .ok n
  | some _ => .error .typeError

/-- One row of the fallback draw loop (uqpipeline_sample.py lines
147-151): for each parameter, min_dict[key] + random.random() *
range_dict[key], drawing from the random stream in order. -/
def uq_draw_row (rng : Nat → ℚ) (minD rangeD : List (String × Scalar)) :
    List (String × PValue) → Nat → Dict → Except PyError Dict
  | [], _, d => .ok d
  | (k, _) :: rest, idx, d =>
      match lookupScalar minD k with
      | .error e => .error e
      | .ok mn =>
          match lookupScalar rangeD k with
          | .error e => .error e
          | .ok rg =>
              match pyMul (.rat (rng idx)) rg with
              | .error e => .error e
              | .ok stepv =>
                  match pyAdd mn stepv with
                  | .error e => .error e
                  | .ok v => uq_draw_row rng minD rangeD rest (idx + 1) (dictInsert d k v)

/-- The fallback draw loop of UQPipelineSampler.get_samples
(uqpipeline_sample.py lines 146-151): num_samples rows of independent
uniform draws; its result random_list is later overwritten. -/
def uq_draw_rows (rng : Nat → ℚ) (minD rangeD : List (String × Scalar))
    (params : List (String × PValue)) : Nat → Nat → Except PyError (List Dict)
  | 0, _ => .ok []
  | n + 1, idx =>
      match uq_draw_row rng minD rangeD params idx [] with
      | .error e => .error e
      | .ok row =>
          match uq_draw_rows rng minD rangeD params n (idx + params.length) with
          | .error e => .error e
          | .ok rest => .ok (row :: rest)

/-- One row rebuilt from backend points (uqpipeline_sample.py lines
163-168): random_dictionary[key] = points[i][j]. -/
def uq_points_row (points : List (List ℚ)) (i : Nat) :
    List (String × PValue) → Nat → Dict → Except PyError Dict
  | [], _, d => .ok d
  | (k, _) :: rest, j, d =>
      match listGet points i with
      | .error e => .error e
      | .ok pts_i =>
          match listGet pts_i j with
          | .error e => .error e
          | .ok pv => uq_points_row points i rest (j + 1) (dictInsert d k (.rat pv))

/-- The backend-points rebuild loop of UQPipelineSampler.get_samples
(uqpipeline_sample.py lines 161-168). -/
def uq_points_rows (points : List (List ℚ)) (params : List (String × PValue)) :
    Nat → Nat → Except PyError (List Dict)
  | 0, _ => .ok []
  | n + 1, i =>
      match uq_points_row points i params 0 [] with
      | .error e => .error e
      | .ok row =>
          match uq_points_rows points params n (i + 1) with
          | .error e => .error e
          | .ok rest => .ok (row :: rest)

/-- The merge loop of UQPipelineSampler.get_samples (uqpipeline_sample.py
lines 171-181): each sample starts from the constants (suppressed
KeyError when absent) and then receives the drawn parameter values. -/
def uq_merge (constants : Option (List (String × Scalar))) (rows : List Dict) :
    List Dict :=
  rows.map (fun row =>
    let base : Dict :=
      match constants with
      | some cs => cs.foldl (fun d kv => dictInsert d kv.1 kv.2) []
      | none => []
    row.foldl (fun d kv => dictInsert d kv.1 kv.2) base)

/-- UQPipelineSampler.get_samples (uqpipeline_sample.py lines 102-183).
`backendMod` models the module-level name `sampler`, bound only when the
UQPipeline backend path exists and imports (lines 15-21): `none` means
the name is undefined and referencing it raises NameError. `rng` models
the stream of random.random() draws. The statement order follows the
source: cache check; `self._samples = []`; the min/range/box loop; the
fallback draw loop (whose result is discarded); the unconditional
`sampler.LatinHyperCubeSampler` reference; the points rebuild; the
constants merge. -/
def uq_get_samples (backendMod : Option Backend) (rng : Nat → ℚ)
    (s : Instance) : Instance × Except PyError (List Dict) :=
  match s.samples with
  | some l => (s, .ok l)
  | none =>
      let s1 : Instance := { s with samples := some [] }
      match s1.data.parameters with
      | none => (s1, .error (.keyError "parameters"))
      | some params =>
          match uq_build_box params with
          | .error e => (s1, .error e)
          | .ok (minD, rangeD, box) =>
              match uq_num_samples s1.data with
              | .error e => (s1, .error e)
              | .ok n =>
                  match uq_draw_rows rng minD rangeD params n.toNat 0 with
                  | .error e => (s1, .error e)
                  | .ok _fallback =>
                      match backendMod with
                      | none => (s1, .error (.nameError "sampler"))
                      | some b =>
                          let points := b n box
                          match uq_points_rows points params n.toNat 0 with
                          | .error e => (s1, .error e)
                          | .ok rows =>
                              let samples := uq_merge s1.data.constants rows
                              ({ s1 with samples := some samples }, .ok samples)

/-- The registered sampler type names
(samplers.py lines 24-34, SAMPLE_FUNCTIONS_DICT keys in order). -/
def SAMPLE_FUNCTIONS_KEYS : List String :=
  ["best_candidate", "column_list", "list", "cross_product", "csv", "random",
   "custom"]

/-- check_validity of the variant registered under a type name: the
cross-product check is embedded from cross_product.py; the remaining
variants are outside the core covered by the spec (section 1) and their
sources are not under src/. Modelled from the spec: those variants run
the shared base validation of section 4.2. -/
def check_validity_of (t : String) (c : Config) : Except PyError Unit :=
  if t = "cross_product" then
    match cross_check_validity c with
    | .error e => .error (.sampling e)
    | .ok _ => .ok ()
  else
    match check_variables_existence c with
    | .error e => .error (.sampling e)
    | .ok _ =>
        match check_variables_for_dups c with
        | .error e => .error (.sampling e)
        | .ok _ => .ok ()

/-- Construction of a sampler variant: `__init__` stores the data, sets
the `_samples` cache to not-yet-computed, and runs check_validity,
propagating its error (cross_product.py lines 45-52; the shared
`__init__` cache initialization is modelled from the spec, section
4.2). -/
def constructSampler (t : String) (c : Config) : Except PyError Instance :=
  match check_validity_of t c with
  | .error e => .error e
  | .ok _ => .ok ⟨t, c, none⟩

/-- Modelled from the spec (section 4.2, base_sampler.py is not under
src/): is_valid() calls check_validity(), returns true on success and
false when a SamplingError occurs, without propagating it; other
exceptions propagate. -/
def is_valid (inst : Instance) : Except PyError Bool :=
  match check_validity_of inst.kind inst.data with
  | .ok _ => .ok true
  | .error (.sampling _) => .ok false
  | .error e => .error e

/-- Message of the missing-type error (samplers.py lines 53-55);
log_and_raise_exception lives in scisample/utils.py, not under src/, and
is modelled from the spec (section 7) as raising SamplingError with the
given message. -/
def noTypeMsg (c : Config) : String :=
  "No type entry in sampler data " ++ reprConfig c

/-- Message of the unrecognized-type error (samplers.py lines 59-62,
including the source's spacing). -/
def notRecognizedMsg (t : String) : String :=
  t ++ " " ++ "  s not a recognized sampler type"

/-- Message of the generic factory validation error (samplers.py lines
67-68). -/
def samplerInvalidMsg : String :=
  "Sampler is invalid, cannot create the maestro specification"

/-- new_sampler (samplers.py lines 37-69), instrumented with a count of
how many times the variant constructor is invoked.  The source
constructs a trial instance, checks its is_valid(), and on success
constructs and returns a second, fresh instance. -/
def new_sampler_counted (c : Config) : Except PyError Instance × Nat :=
  match c.type with
  | none => (.error (.sampling ⟨noTypeMsg c⟩), 0)
  | some t =>
      if SAMPLE_FUNCTIONS_KEYS.contains t then
        match constructSampler t c with
        | .error e => (.error e, 1)
        | .ok trial =>
            match is_valid trial with
            | .error e => (.error e, 1)
            | .ok true =>
                match constructSampler t c with
                | .error e => (.error e, 2)
                | .ok inst => (.ok inst, 2)
            | .ok false => (.error (.sampling ⟨samplerInvalidMsg⟩), 1)
      else (.error (.sampling ⟨notRecognizedMsg t⟩), 0)

/-- new_sampler (samplers.py lines 37-69): the factory's result. -/
def new_sampler (c : Config) : Except PyError Instance :=
  (new_sampler_counted c).1

/-- The configuration of the spec's worked cross-product example:
constants X1: 20, parameters X2: [5,10], X3: [5,10]. -/
def exampleCrossConfig : Config :=
  { type := some "cross_product"
    constants := some [("X1", .int 20)]
    parameters := some [("X2", .list [.int 5, .int 10]),
                        ("X3", .list [.int 5, .int 10])] }

/-- C1: for the cross-product configuration with constants X1: 20 and
parameters X2: [5,10], X3: [5,10], get_samples() returns exactly the four
samples X1,X2,X3 = (20,5,5), (20,5,10), (20,10,5), (20,10,10) in that
order: the last-declared parameter varies fastest and the first-declared
constant varies slowest. -/
theorem cross_product_example_order :
    (cross_get_samples ⟨"cross_product", exampleCrossConfig, none⟩).2 =
      [[("X1", Scalar.int 20), ("X2", Scalar.int 5), ("X3", Scalar.int 5)],
       [("X1", Scalar.int 20), ("X2", Scalar.int 5), ("X3", Scalar.int 10)],
       [("X1", Scalar.int 20), ("X2", Scalar.int 10), ("X3", Scalar.int 5)],
       [("X1", Scalar.int 20), ("X2", Scalar.int 10), ("X3", Scalar.int 10)]] := by
  decide

/-- One parameters entry passes the per-entry numeric checks of
UQPipelineSampler.check_validity: it is a min/max dict and both bounds
convert under float(). -/
def uq_entry_ok : PValue → Bool
  | .minmax mn mx => (pyFloat? mn).isSome && (pyFloat? mx).isSome
  | .list _ => false

/-- UQPipelineSampler.__init__ (uqpipeline_sample.py lines 60-67):
store the data, initialize the cache to not-yet-computed (modelled from
the spec, section 4.2) and run check_validity, propagating its error. -/
def uq_init (c : Config) : Except PyError Instance :=
  match uq_check_validity c with
  | .error e => .error e
  | .ok _ => .ok ⟨"uqpipeline", c, none⟩

/-- A constant random stream, standing in for random.random() where the
draw values do not matter. -/
def rng0 : Nat → ℚ := fun _ => 0

/-- A range-sampler configuration with numeric bounds, used to exercise
get_samples() with no backend installed. -/
def c4cfg : Config :=
  { type := some "random", num_samples := some (.int 2),
    constants := some [("X1", .int 20)],
    parameters := some [("X2", .minmax (.int 5) (.int 10))] }

/-- A cross-product configuration with the name X1 in both constants and
parameters: construction-time validation fails on it. -/
def c5cfg : Config :=
  { type := some "cross_product",
    constants := some [("X1", .int 20)],
    parameters := some [("X1", .list [.int 5])] }

/-- A range-sampler configuration whose X2 minimum is the non-numeric
string abc. -/
def c7cfg : Config :=
  { type := some "random", num_samples := some (.int 5),
    parameters := some [("X2", .minmax (.str "abc") (.int 10))] }

/-- A range-sampler configuration with num_samples = 0, which is not a
positive integer. -/
def c8cfg : Config :=
  { type := some "random", num_samples := some (.int 0),
    parameters := some [("X2", .minmax (.int 5) (.int 10))] }

/-- A configuration with no type key. -/
def c9aCfg : Config :=
  { constants := some [("X1", .int 20)] }

/-- A configuration whose type names no registered variant. -/
def c9bCfg : Config :=
  { type := some "uqpipeline",
    parameters := some [("X2", .minmax (.int 5) (.int 10))] }

/-- A range-sampler configuration on which get_samples() succeeds when a
backend is present. -/
def uqOkConfig : Config :=
  { type := some "random", num_samples := some (.int 1),
    parameters := some [("X2", .minmax (.int 0) (.int 1))] }

/-- A concrete backend returning a single one-dimensional point. -/
def backendW : Backend := fun _ _ => [[0]]

/-- The sample list uq_get_samples produces from uqOkConfig with
backendW. -/
def uqOkResult : List Dict := [[("X2", Scalar.rat 0)]]

theorem sum_map_length_const {α : Type} (l : List α) (c : Nat) :
    (l.map (fun _ => c)).sum = l.length * c := by
  induction l with
  | nil => simp
  | cons a t ih => simp [ih, Nat.succ_mul, Nat.add_comm]

theorem pyProduct_length (axes : List (List Scalar)) :
    (pyProduct axes).length = (axes.map List.length).prod := by
  induction axes with
  | nil => rfl
  | cons ax rest ih =>
      simp only [pyProduct, List.length_flatMap, List.map_map]
      have h1 : (ax.map (List.length ∘ fun x => (pyProduct rest).map (fun t => x :: t))).sum
          = (ax.map (fun _ => (pyProduct rest).length)).sum := by
        congr 1
        exact List.map_congr_left (fun x _ => by simp [Function.comp])
      rw [h1, sum_map_length_const, ih]
      simp [Nat.mul_comm]

theorem pyProduct_mem_length (axes : List (List Scalar)) :
    ∀ t ∈ pyProduct axes, t.length = axes.length := by
  induction axes with
  | nil =>
      intro t ht
      simp [pyProduct] at ht
      simp [ht]
  | cons ax rest ih =>
      intro t ht
      simp only [pyProduct, List.mem_flatMap, List.mem_map] at ht
      obtain ⟨x, _, t', ht', rfl⟩ := ht
      simp [ih t' ht']

theorem prod_singleton_axes (cs : List (String × Scalar)) :
    ((cs.map (fun kv => [kv.2])).map List.length).prod = 1 := by
  induction cs with
  | nil => rfl
  | cons a t ih => simpa using ih

theorem cross_product_list_length (c : Config) :
    (cross_product_list c).length = (cross_parameters c).length := by
  simp [cross_product_list, cross_parameters]

theorem dictInsert_fresh (d : Dict) (k : String) (v : Scalar)
    (h : k ∉ d.map Prod.fst) : dictInsert d k v = d ++ [(k, v)] := by
  have hany : d.any (fun p => p.1 = k) = false := by
    rw [List.any_eq_false]
    intro p hp
    simp only [decide_eq_true_eq]
    intro hpk
    exact h (hpk ▸ List.mem_map_of_mem Prod.fst hp)
  simp [dictInsert, hany]

theorem foldl_dictInsert_append (pairs : List (String × Scalar)) :
    ∀ acc : Dict, (acc.map Prod.fst ++ pairs.map Prod.fst).Nodup →
      pairs.foldl (fun d kv => dictInsert d kv.1 kv.2) acc = acc ++ pairs := by
  induction pairs with
  | nil => intro acc _; simp
  | cons p t ih =>
      intro acc h
      have hfresh : p.1 ∉ acc.map Prod.fst := by
        intro hmem
        rcases (List.nodup_append.mp h) with ⟨_, _, hdisj⟩
        exact hdisj hmem (by simp)
      have hstep : dictInsert acc p.1 p.2 = acc ++ [p] := by
        rw [dictInsert_fresh acc p.1 p.2 hfresh]
      have hre : ((acc ++ [p]).map Prod.fst ++ t.map Prod.fst).Nodup := by
        have h2 := h
        rw [List.map_cons, List.append_cons] at h2
        rw [List.map_append]
        exact h2
      calc (p :: t).foldl (fun d kv => dictInsert d kv.1 kv.2) acc
          = t.foldl (fun d kv => dictInsert d kv.1 kv.2) (acc ++ [p]) := by
            simp [List.foldl_cons, hstep]
        _ = (acc ++ [p]) ++ t := ih (acc ++ [p]) hre
        _ = acc ++ p :: t := by simp

theorem buildSampleDict_eq_zip (keys : List String) (vals : List Scalar)
    (hn : keys.Nodup) (hl : keys.length ≤ vals.length) :
    buildSampleDict keys vals = keys.zip vals := by
  unfold buildSampleDict
  have hfst : (keys.zip vals).map Prod.fst = keys := List.map_fst_zip keys vals hl
  have : (([] : Dict).map Prod.fst ++ (keys.zip vals).map Prod.fst).Nodup := by
    simpa [hfst] using hn
  simpa using foldl_dictInsert_append (keys.zip vals) [] this

theorem cross_valid_dups_ok (c : Config)
    (h : cross_check_validity c = Except.ok ()) :
    check_variables_for_dups c = Except.ok () := by
  unfold cross_check_validity at h
  cases hex : check_variables_existence c with
  | error e => rw [hex] at h; exact absurd h (by simp)
  | ok u => rw [hex] at h; exact h

theorem dups_ok_disjoint (c : Config)
    (h : check_variables_for_dups c = Except.ok ()) :
    ((c.constants.getD []).map Prod.fst).Disjoint
      ((c.parameters.getD []).map Prod.fst) := by
  unfold check_variables_for_dups at h
  cases hf : ((c.constants.getD []).map Prod.fst).find?
      (fun k => ((c.parameters.getD []).map Prod.fst).contains k) with
  | some k => rw [hf] at h; exact absurd h (by simp)
  | none =>
      intro x hx hx2
      have h2 := List.find?_eq_none.mp hf x hx
      have h3 : x ∉ (c.parameters.getD []).map Prod.fst := by simpa using h2
      exact h3 hx2

theorem cross_parameters_nodup (c : Config)
    (hcn : ((c.constants.getD []).map Prod.fst).Nodup)
    (hpn : ((c.parameters.getD []).map Prod.fst).Nodup)
    (hval : cross_check_validity c = Except.ok ()) :
    (cross_parameters c).Nodup :=
  List.Nodup.append hcn hpn (dups_ok_disjoint c (cross_valid_dups_ok c hval))

/-- C2: for every valid cross-product configuration (sequence-valued
parameters), the number of samples produced by get_samples() equals the
product of the lengths of every parameters value sequence; each
constants entry contributes a singleton axis, hence a factor of exactly
one. -/
theorem cross_product_sample_count (c : Config) (k : String)
    (ps : List (String × PValue))
    (hps : c.parameters = some ps)
    (hshape : ∀ p ∈ ps, p.2.isList = true)
    (hval : cross_check_validity c = Except.ok ()) :
    ((cross_get_samples ⟨k, c, none⟩).2).length =
      (ps.map (fun p => (axisOf p.2).length)).prod := by
  have hmain : (cross_get_samples ⟨k, c, none⟩).2 =
      (pyProduct (cross_product_list c)).map
        (fun tup => buildSampleDict (cross_parameters c) tup) := rfl
  rw [hmain, List.length_map, pyProduct_length]
  unfold cross_product_list
  rw [hps]
  rw [List.map_append, List.prod_append, prod_singleton_axes]
  rw [one_mul, List.map_map]
  rfl

/-- C2 witness: the worked example has 2 * 2 = 4 samples. -/
theorem cross_product_sample_count_witness :
    ((cross_get_samples ⟨"cross_product", exampleCrossConfig, none⟩).2).length =
      (([("X2", PValue.list [Scalar.int 5, Scalar.int 10]),
         ("X3", PValue.list [Scalar.int 5, Scalar.int 10])]).map
        (fun p => (axisOf p.2).length)).prod :=
  cross_product_sample_count exampleCrossConfig "cross_product" _
    rfl (by decide) rfl

/-- C3: for every valid cross-product configuration, every sample
returned by get_samples() has key list exactly equal to the parameter
list (constants keys followed by parameters keys, in declaration order);
no sample has a missing or extra key. -/
theorem cross_product_sample_keys (c : Config) (k : String)
    (hcn : ((c.constants.getD []).map Prod.fst).Nodup)
    (hpn : ((c.parameters.getD []).map Prod.fst).Nodup)
    (hval : cross_check_validity c = Except.ok ()) :
    ∀ s ∈ (cross_get_samples ⟨k, c, none⟩).2,
      s.map Prod.fst = cross_parameters c := by
  intro s hs
  have hmain : (cross_get_samples ⟨k, c, none⟩).2 =
      (pyProduct (cross_product_list c)).map
        (fun tup => buildSampleDict (cross_parameters c) tup) := rfl
  rw [hmain] at hs
  obtain ⟨t, ht, rfl⟩ := List.mem_map.mp hs
  have hlen : t.length = (cross_parameters c).length :=
    (pyProduct_mem_length _ t ht).trans (cross_product_list_length c)
  have hnd : (cross_parameters c).Nodup := cross_parameters_nodup c hcn hpn hval
  rw [buildSampleDict_eq_zip _ _ hnd (le_of_eq hlen.symm)]
  exact List.map_fst_zip _ _ (le_of_eq hlen.symm)

/-- C3 witness: the first sample of the worked example carries exactly
the keys X1, X2, X3 in declaration order. -/
theorem cross_product_sample_keys_witness :
    ([("X1", Scalar.int 20), ("X2", Scalar.int 5), ("X3", Scalar.int 5)] : Dict).map
        Prod.fst = cross_parameters exampleCrossConfig :=
  cross_product_sample_keys exampleCrossConfig "cross_product"
    (by decide) (by decide) rfl _ (by decide)

/-- C4: when no external point-generation backend is installed, the
Range Sampler's get_samples() does NOT fall back to the uniform draws it
computes: for any random stream, it raises NameError on the unconditional
`sampler.LatinHyperCubeSampler` reference, leaving the cache holding the
empty list. The claim (and the spec) say backend absence is not an error
and the fallback samples are returned; the code contradicts its own
UQPIPELINE_SAMPLE presence flag and discards the fallback draws. -/
theorem range_no_backend_name_error (rng : Nat → ℚ) :
    uq_get_samples none rng ⟨"random", c4cfg, none⟩ =
      (⟨"random", c4cfg, some []⟩, Except.error (PyError.nameError "sampler")) := by
  simp [uq_get_samples, c4cfg, uq_build_box, pyItem, pySub, uq_num_samples,
    uq_draw_rows, uq_draw_row, lookupScalar, pyMul, pyAdd, dictInsert]

/-- C5 counterexample: for the duplicate-name configuration c5cfg the
factory surfaces the original duplicate-name SamplingError raised during
trial construction, which is not the generic sampler-invalid message the
claim requires. -/
theorem factory_generic_error_claim_false :
    new_sampler c5cfg = Except.error (PyError.sampling ⟨dupMsg "X1"⟩) ∧
      dupMsg "X1" ≠ samplerInvalidMsg := by
  exact ⟨by decide, by decide⟩

/-- C5 (amended): when a configuration's construction-time validation
fails, the trial construction raises the original SamplingError and
new_sampler propagates it directly; the is_valid() pre-check and its
generic sampler-invalid error are never reached. -/
theorem factory_construction_error_propagates (c : Config) (t : String)
    (e : PyError) (ht : c.type = some t)
    (hk : SAMPLE_FUNCTIONS_KEYS.contains t = true)
    (he : constructSampler t c = Except.error e) :
    new_sampler c = Except.error e := by
  have hk2 : t ∈ SAMPLE_FUNCTIONS_KEYS := by simpa using hk
  simp [new_sampler, new_sampler_counted, ht, hk2, he]

/-- C5 witness: the duplicate-name cross-product configuration. -/
theorem factory_construction_error_propagates_witness :
    new_sampler c5cfg = Except.error (PyError.sampling ⟨dupMsg "X1"⟩) :=
  factory_construction_error_propagates c5cfg "cross_product"
    (PyError.sampling ⟨dupMsg "X1"⟩) rfl (by decide) (by decide)

/-- C6: get_samples() is memoized on every sampler: a first call on an
uncomputed cross-product instance caches exactly what it returns; a call
on any instance whose cache is set returns the cached list unchanged,
whatever the configuration now says (both samplers); and any successful
first range-sampler call caches exactly what it returns. -/
theorem get_samples_memoized :
    (∀ (k : String) (d : Config),
        (cross_get_samples ⟨k, d, none⟩).1.samples =
          some (cross_get_samples ⟨k, d, none⟩).2)
  ∧ (∀ (k : String) (d : Config) (l : List Dict),
        cross_get_samples ⟨k, d, some l⟩ = (⟨k, d, some l⟩, l))
  ∧ (∀ (b : Option Backend) (r : Nat → ℚ) (k : String) (d : Config)
        (l : List Dict),
        uq_get_samples b r ⟨k, d, some l⟩ = (⟨k, d, some l⟩, Except.ok l))
  ∧ (∀ (b : Option Backend) (r : Nat → ℚ) (k : String) (d : Config)
        (s₂ : Instance) (l : List Dict),
        uq_get_samples b r ⟨k, d, none⟩ = (s₂, Except.ok l) →
          s₂.samples = some l) := by
  refine ⟨fun k d => rfl, fun k d l => rfl, fun b r k d l => rfl, ?_⟩
  intro b r k d s₂ l h
  simp only [uq_get_samples] at h
  repeat' split at h
  all_goals injection h with h1 h2
  all_goals
    first
      | exact Except.noConfusion h2
      | (injection h2 with h3; rw [← h1, ← h3])

/-- C6 witness: a cached cross-product call, and a successful
range-sampler first call that cached its result. -/
theorem get_samples_memoized_witness :
    cross_get_samples ⟨"cross_product", exampleCrossConfig,
        some [[("X1", Scalar.int 20)]]⟩ =
      (⟨"cross_product", exampleCrossConfig, some [[("X1", Scalar.int 20)]]⟩,
        [[("X1", Scalar.int 20)]]) ∧
    (⟨"random", uqOkConfig, some uqOkResult⟩ : Instance).samples =
      some uqOkResult :=
  ⟨get_samples_memoized.2.1 "cross_product" exampleCrossConfig
      [[("X1", Scalar.int 20)]],
   get_samples_memoized.2.2.2 (some backendW) rng0 "random" uqOkConfig
      ⟨"random", uqOkConfig, some uqOkResult⟩ uqOkResult (by decide)⟩

theorem uq_check_entry_loop_append (pre rest : List (String × PValue))
    (hpre : ∀ e ∈ pre, uq_entry_ok e.2 = true) :
    uq_check_entry_loop (pre ++ rest) = uq_check_entry_loop rest := by
  induction pre with
  | nil => rfl
  | cons p t ih =>
      have hp := hpre p (by simp)
      obtain ⟨k, v⟩ := p
      cases v with
      | list vs => simp [uq_entry_ok] at hp
      | minmax mn mx =>
          simp only [uq_entry_ok, Bool.and_eq_true, Option.isSome_iff_exists] at hp
          obtain ⟨⟨qm, hqm⟩, ⟨qx, hqx⟩⟩ := hp
          have hstep : uq_check_entry_loop ((k, PValue.minmax mn mx) :: (t ++ rest))
              = uq_check_entry_loop (t ++ rest) := by
            simp [uq_check_entry_loop, pyItem, hqm, hqx]
          rw [List.cons_append, hstep]
          exact ih (fun e he => hpre e (by simp [he]))

/-- C7: for every Range Sampler configuration whose parameters contain an
entry whose min (or max) does not convert to a numeric value, check
validity — hence construction — fails with the SamplingError naming that
parameter and its value (the entries before it passing their checks). -/
theorem range_nonnumeric_minmax_error :
    (∀ (c : Config) (pre post : List (String × PValue)) (k : String)
        (mn mx : Scalar),
        check_variables_existence c = Except.ok () →
        check_variables_for_dups c = Except.ok () →
        c.previous_samples = false →
        c.parameters = some (pre ++ (k, PValue.minmax mn mx) :: post) →
        (∀ e ∈ pre, uq_entry_ok e.2 = true) →
        pyFloat? mn = none →
        uq_check_validity c =
          Except.error (PyError.sampling ⟨uq_min_msg k (PValue.minmax mn mx)⟩))
  ∧ (∀ (c : Config) (pre post : List (String × PValue)) (k : String)
        (mn mx : Scalar),
        check_variables_existence c = Except.ok () →
        check_variables_for_dups c = Except.ok () →
        c.previous_samples = false →
        c.parameters = some (pre ++ (k, PValue.minmax mn mx) :: post) →
        (∀ e ∈ pre, uq_entry_ok e.2 = true) →
        (pyFloat? mn).isSome = true →
        pyFloat? mx = none →
        uq_check_validity c =
          Except.error (PyError.sampling ⟨uq_max_msg k (PValue.minmax mn mx)⟩)) := by
  constructor
  · intro c pre post k mn mx hex hdup hprev hps hpre hmn
    simp only [uq_check_validity, hex, hdup, hprev, hps, Bool.false_eq_true,
      if_false]
    rw [uq_check_entry_loop_append pre _ hpre]
    simp [uq_check_entry_loop, pyItem, hmn]
  · intro c pre post k mn mx hex hdup hprev hps hpre hmn hmx
    obtain ⟨qm, hqm⟩ := Option.isSome_iff_exists.mp hmn
    simp only [uq_check_validity, hex, hdup, hprev, hps, Bool.false_eq_true,
      if_false]
    rw [uq_check_entry_loop_append pre _ hpre]
    simp [uq_check_entry_loop, pyItem, hqm, hmx]

/-- C7 witness: a configuration whose X2 minimum is the string abc fails
with the SamplingError naming X2 and its value. -/
theorem range_nonnumeric_minmax_error_witness :
    uq_check_validity c7cfg =
      Except.error (PyError.sampling
        ⟨uq_min_msg "X2" (PValue.minmax (Scalar.str "abc") (Scalar.int 10))⟩) :=
  range_nonnumeric_minmax_error.1 c7cfg [] [] "X2" (Scalar.str "abc")
    (Scalar.int 10) rfl rfl rfl rfl (by simp) rfl

/-- C8 counterexample: construction-time validation accepts num_samples
= 0, which is not a positive integer, so the claimed SamplingError never
happens: range-sampler construction succeeds on c8cfg. -/
theorem range_num_samples_not_validated :
    uq_check_validity c8cfg = Except.ok () ∧
      uq_init c8cfg = Except.ok ⟨"uqpipeline", c8cfg, none⟩ := by
  exact ⟨by decide, by decide⟩

/-- C8 (amended): Range Sampler construction-time validation never
examines num_samples at all: its outcome is identical whatever value the
key holds, or whether it is present. -/
theorem range_check_validity_ignores_num_samples (c : Config)
    (n₁ n₂ : Option Scalar) :
    uq_check_validity { c with num_samples := n₁ } =
      uq_check_validity { c with num_samples := n₂ } := rfl

/-- C9: the factory fails with a SamplingError whenever the type key is
absent, and whenever the type value names no registered variant (the
registered names being best_candidate, column_list, list, cross_product,
csv, random, custom). -/
theorem factory_unknown_type_errors :
    (∀ c : Config, c.type = none →
        ∃ m, new_sampler c = Except.error (PyError.sampling m))
  ∧ (∀ (c : Config) (t : String), c.type = some t →
        SAMPLE_FUNCTIONS_KEYS.contains t = false →
        ∃ m, new_sampler c = Except.error (PyError.sampling m)) := by
  constructor
  · intro c h
    exact ⟨⟨noTypeMsg c⟩, by simp [new_sampler, new_sampler_counted, h]⟩
  · intro c t h hk
    have hk2 : t ∉ SAMPLE_FUNCTIONS_KEYS := by simpa using hk
    exact ⟨⟨notRecognizedMsg t⟩,
      by simp [new_sampler, new_sampler_counted, h, hk2]⟩

/-- C9 witness: a configuration with no type, and one typed uqpipeline,
which is not registered. -/
theorem factory_unknown_type_errors_witness :
    (∃ m, new_sampler c9aCfg = Except.error (PyError.sampling m)) ∧
      ∃ m, new_sampler c9bCfg = Except.error (PyError.sampling m) :=
  ⟨factory_unknown_type_errors.1 c9aCfg rfl,
   factory_unknown_type_errors.2 c9bCfg "uqpipeline" rfl (by decide)⟩

theorem constructSampler_ok (t : String) (c : Config) (i : Instance)
    (h : constructSampler t c = Except.ok i) : i = ⟨t, c, none⟩ := by
  unfold constructSampler at h
  cases hcv : check_validity_of t c with
  | error e => rw [hcv] at h; exact absurd h (by simp)
  | ok u => rw [hcv] at h; exact (Except.ok.inj h).symm

theorem is_valid_after_ok (t : String) (c : Config) (trial : Instance)
    (h : constructSampler t c = Except.ok trial) :
    is_valid trial = Except.ok true := by
  have htr := constructSampler_ok t c trial h
  subst htr
  unfold constructSampler at h
  cases hcv : check_validity_of t c with
  | error e => rw [hcv] at h; exact absurd h (by simp)
  | ok u =>
      unfold is_valid
      rw [hcv]

/-- C10: whenever the factory accepts a configuration, the variant
constructor runs exactly twice: the trial instance probed by is_valid()
is discarded and the returned instance is a second, fresh construction
whose sample cache is still uncomputed. -/
theorem factory_returns_fresh_second_instance (c : Config) (t : String)
    (inst : Instance) (ht : c.type = some t)
    (hok : new_sampler c = Except.ok inst) :
    (new_sampler_counted c).2 = 2 ∧ inst.samples = none ∧
      constructSampler t c = Except.ok inst := by
  by_cases hk : t ∈ SAMPLE_FUNCTIONS_KEYS
  · cases h1 : constructSampler t c with
    | error e =>
        rw [show new_sampler c = Except.error e from by
          simp [new_sampler, new_sampler_counted, ht, hk, h1]] at hok
        exact absurd hok (by simp)
    | ok trial =>
        have hv := is_valid_after_ok t c trial h1
        have hns : new_sampler_counted c = (Except.ok trial, 2) := by
          simp [new_sampler_counted, ht, hk, h1, hv]
        have heq : (Except.ok trial : Except PyError Instance) = Except.ok inst := by
          rw [← hok]; simp [new_sampler, hns]
        have hti : inst = trial := (Except.ok.inj heq).symm
        subst hti
        refine ⟨by simp [hns], ?_, rfl⟩
        rw [constructSampler_ok t c inst h1]
  · rw [show new_sampler c = Except.error (.sampling ⟨notRecognizedMsg t⟩) from by
      simp [new_sampler, new_sampler_counted, ht, hk]] at hok
    exact absurd hok (by simp)

/-- C10 witness: the worked cross-product configuration is accepted with
two constructions and an uncomputed cache. -/
theorem factory_returns_fresh_second_instance_witness :
    (new_sampler_counted exampleCrossConfig).2 = 2 ∧
      (⟨"cross_product", exampleCrossConfig, none⟩ : Instance).samples = none ∧
      constructSampler "cross_product" exampleCrossConfig =
        Except.ok ⟨"cross_product", exampleCrossConfig, none⟩ :=
  factory_returns_fresh_second_instance exampleCrossConfig "cross_product"
    ⟨"cross_product", exampleCrossConfig, none⟩ rfl (by decide)

end Scisample
